import Mathlib

/-!
Verification of the tenant-project-backend authorization core.

The definitions below are a shallow embedding of `middleware/auth.js`
(`verifyToken`, `checkPermission`, `checkAnyPermission`) and of the
session-handling routes in `routes/tenants.js` (`POST /auth/logout`,
`POST /auth/refresh-token`) and `routes/users.js`
(`PUT /users/:id/status`).  The relational tables touched by these code
paths (`users`, `tenants`, `roles`, `permissions`, `role_permissions`,
`user_roles`, `user_sessions`) are embedded as lists of rows, and each
SQL statement issued by the code is translated into an explicit
filter/join over those lists.  Timestamps are integers; `NOW()` is an
explicit `now` parameter.
-/

namespace TenantBackend

/-- JWT payload as signed by the backend: `{ userId, tenantId }`. -/
structure Payload where
  userId : Nat
  tenantId : Nat
deriving DecidableEq, Repr

/-- Signing keys.  `accessSecret` models `process.env.JWT_SECRET`,
`refreshSecret` models `process.env.JWT_REFRESH_SECRET`, and `other n`
is any foreign key a forged token might be signed with. -/
inductive Key where
  | accessSecret : Key
  | refreshSecret : Key
  | other : Nat → Key
deriving DecidableEq, Repr

/-- A bearer token: either structurally invalid (malformed), or a
well-formed token carrying a payload, the key it was signed with, and
an expiry timestamp. -/
inductive Token where
  | malformed : Token
  | signed : Payload → Key → Int → Token
deriving DecidableEq, Repr

/-- Error kinds thrown by `jwt.verify` in the `jsonwebtoken` library:
`JsonWebTokenError` (malformed token or bad signature) and
`TokenExpiredError` (valid signature but `exp` in the past). -/
inductive JwtError where
  | jsonWebTokenError : JwtError
  | tokenExpiredError : JwtError
deriving DecidableEq, Repr

/-- `jwt.verify(token, secret)` from the `jsonwebtoken` library, at
clock time `now`.  The library first decodes and checks the signature
(`jws.verify`), throwing `JsonWebTokenError` for a malformed token or a
signature made with a different key; only after the signature verifies
does it compare `payload.exp` against the clock and throw
`TokenExpiredError` when `exp <= now`.  So the signature check strictly
precedes the expiry check. -/
def jwtVerify (token : Token) (key : Key) (now : Int) : Except JwtError Payload :=
  match token with
  | Token.malformed => Except.error JwtError.jsonWebTokenError
  | Token.signed payload k exp =>
      if k ≠ key then Except.error JwtError.jsonWebTokenError
      else if exp ≤ now then Except.error JwtError.tokenExpiredError
      else Except.ok payload

/-- Row of the `users` table (the columns read by the auth core). -/
structure UserRow where
  id : Nat
  email : String
  first_name : String
  last_name : String
  tenant_id : Nat
  status : String
deriving DecidableEq, Repr

/-- Row of the `tenants` table. -/
structure TenantRow where
  id : Nat
  name : String
  status : String
deriving DecidableEq, Repr

/-- Row of the `roles` table (roles are tenant-scoped). -/
structure RoleRow where
  id : Nat
  tenant_id : Nat
deriving DecidableEq, Repr

/-- Row of the `permissions` table. -/
structure PermissionRow where
  id : Nat
  name : String
deriving DecidableEq, Repr

/-- Row of the `role_permissions` join table. -/
structure RolePermissionRow where
  role_id : Nat
  permission_id : Nat
deriving DecidableEq, Repr

/-- Row of the `user_roles` join table. -/
structure UserRoleRow where
  user_id : Nat
  role_id : Nat
deriving DecidableEq, Repr

/-- Row of the `user_sessions` table (the columns read by the
logout/refresh routes). -/
structure SessionRow where
  refresh_token : Token
  user_id : Nat
  is_active : Bool
  expires_at : Int
deriving DecidableEq, Repr

/-- The credential store: the tables touched by the authorization
core, each as a list of rows. -/
structure DB where
  users : List UserRow
  tenants : List TenantRow
  roles : List RoleRow
  permissions : List PermissionRow
  role_permissions : List RolePermissionRow
  user_roles : List UserRoleRow
  user_sessions : List SessionRow
deriving DecidableEq, Repr

/-- The `req.user` object attached by `verifyToken` on success. -/
structure Principal where
  id : Nat
  email : String
  firstName : String
  lastName : String
  tenantId : Nat
  tenantName : String
  permissions : List String
deriving DecidableEq, Repr

/-- Outcome of the `verifyToken` middleware: either a JSON rejection
`res.status(s).json({ error })` or admission (`next()` is called with
`req.user` set to the principal). -/
inductive AuthResult where
  | reject : Nat → String → AuthResult
  | accept : Principal → AuthResult
deriving DecidableEq, Repr

/-- A query issued against the credential store by `verifyToken`:
either the user-and-tenant join or the permission lookup. -/
inductive QueryEvent where
  | userTenantLookup : Nat → QueryEvent
  | permissionLookup : Nat → QueryEvent
deriving DecidableEq, Repr

/-- The first query of `verifyToken`:
`SELECT u.*, t.id AS tenant_id, t.name AS tenant_name, t.status AS tenant_status
 FROM users u JOIN tenants t ON u.tenant_id = t.id
 WHERE u.id = ? AND u.status = 'active'`. -/
def userTenantQuery (db : DB) (uid : Nat) : List (UserRow × TenantRow) :=
  (db.users.filter (fun u => u.id = uid ∧ u.status = "active")).flatMap
    (fun u => (db.tenants.filter (fun t => u.tenant_id = t.id)).map (fun t => (u, t)))

/-- The second query of `verifyToken`:
`SELECT DISTINCT p.name FROM permissions p
 JOIN role_permissions rp ON p.id = rp.permission_id
 JOIN user_roles ur ON rp.role_id = ur.role_id
 WHERE ur.user_id = ?`.
`DISTINCT` is `List.dedup`. -/
def permissionsQuery (db : DB) (uid : Nat) : List String :=
  ((db.permissions.flatMap (fun p =>
      (db.role_permissions.filter (fun rp => p.id = rp.permission_id)).flatMap
        (fun rp =>
          (db.user_roles.filter (fun ur => rp.role_id = ur.role_id ∧ ur.user_id = uid)).map
            (fun _ => p.name)))).dedup)

/-- `verifyToken` from `middleware/auth.js`, instrumented with the
list of credential-store queries it issues.  `token?` is
`req.headers.authorization?.split(' ')[1]` (absent header or missing
token part gives `none`).  The `catch` block maps `JsonWebTokenError`
to `401 Invalid token` and `TokenExpiredError` to `401 Token expired`. -/
def verifyTokenT (db : DB) (now : Int) (token? : Option Token) :
    AuthResult × List QueryEvent :=
  match token? with
  | none => (AuthResult.reject 401 "Access token required", [])
  | some token =>
    match jwtVerify token Key.accessSecret now with
    | Except.error JwtError.jsonWebTokenError =>
        (AuthResult.reject 401 "Invalid token", [])
    | Except.error JwtError.tokenExpiredError =>
        (AuthResult.reject 401 "Token expired", [])
    | Except.ok decoded =>
      match userTenantQuery db decoded.userId with
      | [] => (AuthResult.reject 401 "User not found or inactive",
               [QueryEvent.userTenantLookup decoded.userId])
      | (u, t) :: _ =>
        if t.status ≠ "active" then
          (AuthResult.reject 403 "Organization is suspended",
           [QueryEvent.userTenantLookup decoded.userId])
        else
          (AuthResult.accept
            { id := u.id
              email := u.email
              firstName := u.first_name
              lastName := u.last_name
              tenantId := t.id
              tenantName := t.name
              permissions := permissionsQuery db u.id },
           [QueryEvent.userTenantLookup decoded.userId,
            QueryEvent.permissionLookup u.id])

/-- `verifyToken` proper: the HTTP outcome of the middleware. -/
def verifyToken (db : DB) (now : Int) (token? : Option Token) : AuthResult :=
  (verifyTokenT db now token?).1

/-- Outcome of a permission gate: a JSON 403 rejection (whose
`required` field is a single permission for `checkPermission` and a
list for `checkAnyPermission`) or `next()`. -/
inductive GateResult where
  | rejectOne : Nat → String → String → GateResult
  | rejectMany : Nat → String → List String → GateResult
  | next : GateResult
deriving DecidableEq, Repr

/-- `checkPermission(permission)` from `middleware/auth.js`:
reject 403 unless `req.user.permissions.includes(permission)`. -/
def checkPermission (permission : String) (user : Principal) : GateResult :=
  if ¬ user.permissions.contains permission then
    GateResult.rejectOne 403 "Insufficient permissions" permission
  else GateResult.next

/-- `checkAnyPermission(...permissions)` from `middleware/auth.js`:
reject 403 unless `permissions.some(p => req.user.permissions.includes(p))`. -/
def checkAnyPermission (permissions : List String) (user : Principal) : GateResult :=
  if ¬ permissions.any (fun p => user.permissions.contains p) then
    GateResult.rejectMany 403 "Insufficient permissions" permissions
  else GateResult.next

/-- `POST /auth/logout` session revocation from `routes/tenants.js`:
`UPDATE user_sessions SET is_active = FALSE WHERE refresh_token = ?`. -/
def revoke (db : DB) (rt : Token) : DB :=
  { db with
    user_sessions := db.user_sessions.map (fun s =>
      if s.refresh_token = rt then { s with is_active := false } else s) }

/-- Session invalidation on account deactivation from
`routes/users.js` (`PUT /users/:id/status`):
`UPDATE user_sessions SET is_active = FALSE WHERE user_id = ?`. -/
def revokeAll (db : DB) (uid : Nat) : DB :=
  { db with
    user_sessions := db.user_sessions.map (fun s =>
      if s.user_id = uid then { s with is_active := false } else s) }

/-- The session lookup of `POST /auth/refresh-token`:
`SELECT * FROM user_sessions
 WHERE refresh_token = ? AND is_active = TRUE AND expires_at > NOW()`. -/
def sessionQuery (db : DB) (rt : Token) (now : Int) : List SessionRow :=
  db.user_sessions.filter
    (fun s => s.refresh_token = rt ∧ s.is_active = true ∧ now < s.expires_at)

/-- A refresh token is usable iff the session lookup returns a row
(`sessions.length === 0` is the rejection test in the refresh route). -/
def isSessionValid (db : DB) (rt : Token) (now : Int) : Bool :=
  !(sessionQuery db rt now).isEmpty

/-- Outcome of `POST /auth/refresh-token`: a JSON rejection or a fresh
access token in the response body. -/
inductive RefreshResult where
  | reject : Nat → String → RefreshResult
  | issue : Token → RefreshResult
deriving DecidableEq, Repr

/-- `POST /auth/refresh-token` from `routes/tenants.js`.  Verifies the
refresh token against `JWT_REFRESH_SECRET` (the `catch` maps both
`JsonWebTokenError` and `TokenExpiredError` to
`401 Invalid refresh token`), requires an active unexpired session
row, then signs a new access token with `JWT_SECRET` expiring
`accessTtl` after `now` (`expiresIn: JWT_EXPIRES_IN || '1h'`). -/
def refreshTokenRoute (db : DB) (now : Int) (accessTtl : Int)
    (body? : Option Token) : RefreshResult :=
  match body? with
  | none => RefreshResult.reject 400 "Refresh token required"
  | some rt =>
    match jwtVerify rt Key.refreshSecret now with
    | Except.error _ => RefreshResult.reject 401 "Invalid refresh token"
    | Except.ok decoded =>
      if (sessionQuery db rt now).isEmpty then
        RefreshResult.reject 401 "Invalid or expired refresh token"
      else
        RefreshResult.issue
          (Token.signed { userId := decoded.userId, tenantId := decoded.tenantId }
            Key.accessSecret (now + accessTtl))

/-! ### Spec-side predicates

These follow the spec's words, to be compared with the query
definitions above. -/

/-- Spec §4.3 step 5: the permission named `name` is reachable for user
`uid` through some role assigned to the user — there is a `user_roles`
assignment for the user, a `role_permissions` grant for that role, and
a `permissions` row carrying the name. -/
def permissionReachable (db : DB) (uid : Nat) (name : String) : Prop :=
  ∃ ur ∈ db.user_roles, ur.user_id = uid ∧
    ∃ rp ∈ db.role_permissions, rp.role_id = ur.role_id ∧
      ∃ p ∈ db.permissions, p.id = rp.permission_id ∧ p.name = name

instance (db : DB) (uid : Nat) (name : String) :
    Decidable (permissionReachable db uid name) := by
  unfold permissionReachable
  infer_instance

/-- The role `rid` belongs to tenant `tid` (spec §3: roles are
tenant-scoped). -/
def roleOfTenant (db : DB) (rid tid : Nat) : Prop :=
  ∃ r ∈ db.roles, r.id = rid ∧ r.tenant_id = tid

instance (db : DB) (rid tid : Nat) : Decidable (roleOfTenant db rid tid) := by
  unfold roleOfTenant
  infer_instance

/-- Spec §3 invariant, stated per permission name: `name` is granted to
user `uid` via a role assignment whose role belongs to tenant `tid`. -/
def grantedViaTenantRole (db : DB) (uid tid : Nat) (name : String) : Prop :=
  ∃ ur ∈ db.user_roles, ur.user_id = uid ∧ roleOfTenant db ur.role_id tid ∧
    ∃ rp ∈ db.role_permissions, rp.role_id = ur.role_id ∧
      ∃ p ∈ db.permissions, p.id = rp.permission_id ∧ p.name = name

instance (db : DB) (uid tid : Nat) (name : String) :
    Decidable (grantedViaTenantRole db uid tid name) := by
  unfold grantedViaTenantRole
  infer_instance

/-! ### Concrete stores for witnesses and counterexamples -/

/-- Empty credential store. -/
def emptyDB : DB := ⟨[], [], [], [], [], [], []⟩

/-- A small consistent store: active tenant 1, active user 1 in tenant
1, role 10 of tenant 1 granting permission `tasks.view`, one active
session for the refresh token expiring at time 100. -/
def sampleDB : DB :=
  { users := [{ id := 1, email := "ada@example.com", first_name := "Ada",
                last_name := "L", tenant_id := 1, status := "active" }]
    tenants := [{ id := 1, name := "T1", status := "active" }]
    roles := [{ id := 10, tenant_id := 1 }]
    permissions := [{ id := 5, name := "tasks.view" }]
    role_permissions := [{ role_id := 10, permission_id := 5 }]
    user_roles := [{ user_id := 1, role_id := 10 }]
    user_sessions := [{ refresh_token := Token.signed ⟨1, 1⟩ Key.refreshSecret 100,
                        user_id := 1, is_active := true, expires_at := 100 }] }

/-- `sampleDB` with tenant 1 suspended. -/
def suspendedDB : DB :=
  { sampleDB with tenants := [{ id := 1, name := "T1", status := "suspended" }] }

/-- A store whose only user is inactive and whose tenant is suspended,
yet which still holds an active unexpired session row for the refresh
token. -/
def staleDB : DB :=
  { users := [{ id := 1, email := "ada@example.com", first_name := "Ada",
                last_name := "L", tenant_id := 1, status := "inactive" }]
    tenants := [{ id := 1, name := "T1", status := "suspended" }]
    roles := []
    permissions := []
    role_permissions := []
    user_roles := []
    user_sessions := [{ refresh_token := Token.signed ⟨1, 1⟩ Key.refreshSecret 100,
                        user_id := 1, is_active := true, expires_at := 100 }] }

/-- The principal `verifyToken` attaches for user 1 of `sampleDB`. -/
def samplePrincipal : Principal :=
  { id := 1, email := "ada@example.com", firstName := "Ada", lastName := "L",
    tenantId := 1, tenantName := "T1", permissions := ["tasks.view"] }

/-- A store with a cross-tenant role assignment: user 1 belongs to
tenant 1, but is assigned role 99 which belongs to tenant 2 and grants
permission `secret`. -/
def leakDB : DB :=
  { users := [{ id := 1, email := "eve@example.com", first_name := "Eve",
                last_name := "M", tenant_id := 1, status := "active" }]
    tenants := [{ id := 1, name := "T1", status := "active" },
                { id := 2, name := "T2", status := "active" }]
    roles := [{ id := 99, tenant_id := 2 }]
    permissions := [{ id := 5, name := "secret" }]
    role_permissions := [{ role_id := 99, permission_id := 5 }]
    user_roles := [{ user_id := 1, role_id := 99 }]
    user_sessions := [] }

/-- The principal `verifyToken` attaches for user 1 of `leakDB`. -/
def leakPrincipal : Principal :=
  { id := 1, email := "eve@example.com", firstName := "Eve", lastName := "M",
    tenantId := 1, tenantName := "T1", permissions := ["secret"] }

/-! ### Helper lemmas -/

/-- Membership in the `DISTINCT` permission query is exactly
reachability through an assigned role. -/
lemma mem_permissionsQuery (db : DB) (uid : Nat) (name : String) :
    name ∈ permissionsQuery db uid ↔ permissionReachable db uid name := by
  unfold permissionsQuery permissionReachable
  simp only [List.mem_dedup, List.mem_flatMap, List.mem_filter, List.mem_map,
    decide_eq_true_eq]
  constructor
  · rintro ⟨p, hp, rp, ⟨hrp, hpid⟩, ur, ⟨hur, hrid, huid⟩, rfl⟩
    exact ⟨ur, hur, huid, rp, hrp, hrid, p, hp, hpid, rfl⟩
  · rintro ⟨ur, hur, huid, rp, hrp, hrid, p, hp, hpid, rfl⟩
    exact ⟨p, hp, rp, ⟨hrp, hpid⟩, ur, ⟨hur, hrid, huid⟩, rfl⟩

/-- Under primary-key uniqueness of `users.id` and `tenants.id`, when
an active user with id `uid` exists and their tenant row exists, the
user-and-tenant join is nonempty and every returned row is that pair. -/
lemma userTenantQuery_eq_pair (db : DB) (uid : Nat) (u : UserRow) (t : TenantRow)
    (uuniq : ∀ u1 ∈ db.users, ∀ u2 ∈ db.users, u1.id = u2.id → u1 = u2)
    (tuniq : ∀ t1 ∈ db.tenants, ∀ t2 ∈ db.tenants, t1.id = t2.id → t1 = t2)
    (hu : u ∈ db.users) (hid : u.id = uid) (hact : u.status = "active")
    (ht : t ∈ db.tenants) (htid : u.tenant_id = t.id) :
    userTenantQuery db uid ≠ [] ∧ ∀ x ∈ userTenantQuery db uid, x = (u, t) := by
  have hmem : (u, t) ∈ userTenantQuery db uid := by
    unfold userTenantQuery
    simp only [List.mem_flatMap, List.mem_filter, List.mem_map, decide_eq_true_eq]
    exact ⟨u, ⟨hu, hid, hact⟩, t, ⟨ht, htid⟩, rfl⟩
  refine ⟨List.ne_nil_of_mem hmem, ?_⟩
  intro x hx
  unfold userTenantQuery at hx
  simp only [List.mem_flatMap, List.mem_filter, List.mem_map, decide_eq_true_eq] at hx
  obtain ⟨u2, ⟨hu2, hid2, hact2⟩, t2, ⟨ht2, htid2⟩, rfl⟩ := hx
  have hueq : u2 = u := uuniq u2 hu2 u hu (by rw [hid2, hid])
  subst hueq
  have hteq : t2 = t := tuniq t2 ht2 t ht (by rw [← htid2, htid])
  subst hteq
  rfl

/-! ### Claim C6 -/

/-- C6: `checkPermission name` rejects with
`403 { error: 'Insufficient permissions', required: name }` exactly
when `name` is not in the principal's permission list (and calls
`next()` exactly when it is); `checkAnyPermission names` rejects with
`403` exactly when none of `names` is in the principal's permission
list. -/
theorem C6_permission_gates_iff (pr : Principal) (name : String) (names : List String) :
    (checkPermission name pr =
        GateResult.rejectOne 403 "Insufficient permissions" name ↔
      name ∉ pr.permissions) ∧
    (checkPermission name pr = GateResult.next ↔ name ∈ pr.permissions) ∧
    (checkAnyPermission names pr =
        GateResult.rejectMany 403 "Insufficient permissions" names ↔
      ∀ n ∈ names, n ∉ pr.permissions) := by
  refine ⟨?_, ?_, ?_⟩
  · unfold checkPermission
    by_cases h : name ∈ pr.permissions <;> simp [h]
  · unfold checkPermission
    by_cases h : name ∈ pr.permissions <;> simp [h]
  · unfold checkAnyPermission
    by_cases h : ∃ n ∈ names, n ∈ pr.permissions
    · obtain ⟨n, hn, hmem⟩ := h
      have hany : names.any (fun p => pr.permissions.contains p) = true := by
        simp only [List.any_eq_true]
        exact ⟨n, hn, List.elem_iff.mpr hmem⟩
      rw [if_neg (by rw [hany]; simp)]
      constructor
      · intro hcontra
        exact absurd hcontra (by simp)
      · intro hall
        exact absurd hmem (hall n hn)
    · have hany : names.any (fun p => pr.permissions.contains p) = false := by
        simp only [List.any_eq_false]
        intro n hn hmem
        exact h ⟨n, hn, List.elem_iff.mp hmem⟩
      push_neg at h
      rw [if_pos (by rw [hany]; simp)]
      simpa using h

/-! ### Claim C10 -/

/-- C10: `checkAnyPermission()` with no permission names rejects every
principal with `403 Insufficient permissions` (the empty disjunction is
false), even a principal holding every permission. -/
theorem C10_empty_any_permission_denies (pr : Principal) :
    checkAnyPermission [] pr =
      GateResult.rejectMany 403 "Insufficient permissions" [] := by
  unfold checkAnyPermission
  simp

/-! ### Claim C7 -/

/-- C7: revoking a session makes `isSessionValid` false for its
refresh token at every later clock reading, revoking twice equals
revoking once, and revoking a token with no matching session row
leaves the store unchanged (idempotent no-op success). -/
theorem C7_revoke_invalidates_and_idempotent (db : DB) (rt : Token) (now : Int) :
    isSessionValid (revoke db rt) rt now = false ∧
    revoke (revoke db rt) rt = revoke db rt ∧
    ((∀ s ∈ db.user_sessions, s.refresh_token ≠ rt) → revoke db rt = db) := by
  refine ⟨?_, ?_, ?_⟩
  · unfold isSessionValid
    rw [Bool.not_eq_false', List.isEmpty_iff]
    unfold sessionQuery revoke
    rw [List.filter_eq_nil_iff]
    intro s hs
    simp only [List.mem_map] at hs
    obtain ⟨a, _ha, rfl⟩ := hs
    by_cases h : a.refresh_token = rt <;> simp [h]
  · unfold revoke
    simp only [List.map_map]
    congr 1
    apply List.map_congr_left
    intro s _hs
    by_cases h : s.refresh_token = rt <;> simp [Function.comp, h]
  · intro h
    unfold revoke
    have hmap : db.user_sessions.map
        (fun s => if s.refresh_token = rt then { s with is_active := false } else s) =
        db.user_sessions := by
      conv_rhs => rw [← List.map_id db.user_sessions]
      refine List.map_congr_left (fun s hs => ?_)
      rw [if_neg (h s hs)]
      rfl
    rw [hmap]

/-- C7 witness: in `sampleDB`, revoking the stored refresh token makes
it invalid and re-revoking changes nothing; on `emptyDB` the revocation
is a no-op. -/
theorem C7_revoke_witness :
    (isSessionValid (revoke sampleDB (Token.signed ⟨1, 1⟩ Key.refreshSecret 100))
        (Token.signed ⟨1, 1⟩ Key.refreshSecret 100) 0 = false ∧
      revoke (revoke sampleDB (Token.signed ⟨1, 1⟩ Key.refreshSecret 100))
          (Token.signed ⟨1, 1⟩ Key.refreshSecret 100) =
        revoke sampleDB (Token.signed ⟨1, 1⟩ Key.refreshSecret 100)) ∧
    revoke emptyDB (Token.signed ⟨1, 1⟩ Key.refreshSecret 100) = emptyDB :=
  ⟨⟨(C7_revoke_invalidates_and_idempotent sampleDB
        (Token.signed ⟨1, 1⟩ Key.refreshSecret 100) 0).1,
    (C7_revoke_invalidates_and_idempotent sampleDB
        (Token.signed ⟨1, 1⟩ Key.refreshSecret 100) 0).2.1⟩,
   (C7_revoke_invalidates_and_idempotent emptyDB
        (Token.signed ⟨1, 1⟩ Key.refreshSecret 100) 0).2.2 (by decide)⟩

/-! ### Claim C8 -/

/-- C8: the access-token decision of `verifyToken` never reads
`user_sessions`: replacing the session table arbitrarily, revoking one
refresh token, or revoking all of a user's sessions leaves the
middleware's result unchanged for every request — in particular a
valid unexpired access token is still admitted after every session of
its user has been revoked. -/
theorem C8_access_decision_ignores_sessions
    (db : DB) (sessions : List SessionRow) (now : Int) (token? : Option Token)
    (rt : Token) (uid : Nat) :
    verifyToken { db with user_sessions := sessions } now token? =
        verifyToken db now token? ∧
    verifyToken (revoke db rt) now token? = verifyToken db now token? ∧
    verifyToken (revokeAll db uid) now token? = verifyToken db now token? :=
  ⟨rfl, rfl, rfl⟩

/-! ### Claim C3 -/

/-- C3 counterexample: a token past expiry and signed with a foreign
key is rejected as `401 Invalid token`, not `401 Token expired`,
because `jwt.verify` checks the signature before the expiry claim. -/
theorem C3_counterexample_expired_and_wrongly_signed :
    verifyToken emptyDB 0 (some (Token.signed ⟨1, 1⟩ (Key.other 0) (-1))) =
        AuthResult.reject 401 "Invalid token" ∧
    verifyToken emptyDB 0 (some (Token.signed ⟨1, 1⟩ (Key.other 0) (-1))) ≠
        AuthResult.reject 401 "Token expired" :=
  ⟨rfl, by decide⟩

/-- C3 amended: for every token past expiry that is signed with the
correct access secret, `verifyToken` rejects with `401 Token expired`;
a past-expiry token with a wrong signature is instead rejected as
`401 Invalid token` since the signature check comes first. -/
theorem C3_amended_expired_valid_signature_rejected
    (db : DB) (now exp : Int) (payload : Payload) (hexp : exp ≤ now) :
    verifyToken db now (some (Token.signed payload Key.accessSecret exp)) =
      AuthResult.reject 401 "Token expired" := by
  have hj : jwtVerify (Token.signed payload Key.accessSecret exp) Key.accessSecret now =
      Except.error JwtError.tokenExpiredError := by
    simp only [jwtVerify]
    rw [if_neg (by simp), if_pos hexp]
  simp only [verifyToken, verifyTokenT, hj]

/-- C3 amended, witnessed at the concrete token of the counterexample
but correctly signed. -/
theorem C3_amended_witness :
    (-1 : Int) ≤ 0 ∧
    verifyToken emptyDB 0 (some (Token.signed ⟨1, 1⟩ Key.accessSecret (-1))) =
      AuthResult.reject 401 "Token expired" :=
  ⟨by decide, C3_amended_expired_valid_signature_rejected emptyDB 0 (-1) ⟨1, 1⟩ (by decide)⟩

/-! ### Claim C4 -/

/-- C4: for a malformed bearer token, or one signed with any key other
than the access secret, `verifyToken` rejects with `401 Invalid token`
and its credential-store query trace is empty — no user, tenant or
permission lookup happens. -/
theorem C4_invalid_token_rejected_without_lookup
    (db : DB) (now : Int) (tok : Token)
    (h : tok = Token.malformed ∨
      ∃ payload key exp, tok = Token.signed payload key exp ∧ key ≠ Key.accessSecret) :
    verifyTokenT db now (some tok) = (AuthResult.reject 401 "Invalid token", []) := by
  rcases h with rfl | ⟨payload, key, exp, rfl, hk⟩
  · rfl
  · have hj : jwtVerify (Token.signed payload key exp) Key.accessSecret now =
        Except.error JwtError.jsonWebTokenError := by
      simp only [jwtVerify]
      rw [if_pos hk]
    simp only [verifyTokenT, hj]

/-- C4 witnessed on a token signed with the refresh secret, against a
store that does hold a matching active user. -/
theorem C4_witness :
    (Token.signed ⟨1, 1⟩ Key.refreshSecret 100 = Token.malformed ∨
      ∃ payload key exp,
        Token.signed ⟨1, 1⟩ Key.refreshSecret 100 = Token.signed payload key exp ∧
        key ≠ Key.accessSecret) ∧
    verifyTokenT sampleDB 0 (some (Token.signed ⟨1, 1⟩ Key.refreshSecret 100)) =
      (AuthResult.reject 401 "Invalid token", []) :=
  ⟨Or.inr ⟨⟨1, 1⟩, Key.refreshSecret, 100, rfl, by decide⟩,
   C4_invalid_token_rejected_without_lookup sampleDB 0
     (Token.signed ⟨1, 1⟩ Key.refreshSecret 100)
     (Or.inr ⟨⟨1, 1⟩, Key.refreshSecret, 100, rfl, by decide⟩)⟩

/-! ### Claim C1 -/

/-- C1: for an unexpired token signed with the access secret whose
`userId` is the id of an active user whose tenant is active (row ids
unique, as primary keys), `verifyToken` admits the request and the
attached principal's permission list is duplicate-free and contains a
permission name exactly when it is reachable through some role
assigned to the user. -/
theorem C1_admits_with_permission_union
    (db : DB) (now exp : Int) (payload : Payload) (u : UserRow) (t : TenantRow)
    (uuniq : ∀ u1 ∈ db.users, ∀ u2 ∈ db.users, u1.id = u2.id → u1 = u2)
    (tuniq : ∀ t1 ∈ db.tenants, ∀ t2 ∈ db.tenants, t1.id = t2.id → t1 = t2)
    (hexp : now < exp)
    (hu : u ∈ db.users) (hid : u.id = payload.userId) (hact : u.status = "active")
    (ht : t ∈ db.tenants) (htid : u.tenant_id = t.id) (htact : t.status = "active") :
    ∃ pr : Principal,
      verifyToken db now (some (Token.signed payload Key.accessSecret exp)) =
        AuthResult.accept pr ∧
      pr.permissions.Nodup ∧
      ∀ name : String,
        name ∈ pr.permissions ↔ permissionReachable db payload.userId name := by
  obtain ⟨hne, hall⟩ :=
    userTenantQuery_eq_pair db payload.userId u t uuniq tuniq hu hid hact ht htid
  obtain ⟨x, xs, hq⟩ := List.exists_cons_of_ne_nil hne
  have hx : x = (u, t) := hall x (hq ▸ List.mem_cons_self x xs)
  subst hx
  refine ⟨{ id := u.id, email := u.email, firstName := u.first_name,
            lastName := u.last_name, tenantId := t.id, tenantName := t.name,
            permissions := permissionsQuery db u.id }, ?_, ?_, ?_⟩
  · have hj : jwtVerify (Token.signed payload Key.accessSecret exp) Key.accessSecret now =
        Except.ok payload := by
      simp only [jwtVerify]
      rw [if_neg (by simp), if_neg (not_le.mpr hexp)]
    simp only [verifyToken, verifyTokenT, hj, hq]
    rw [if_neg (by simp [htact])]
  · exact List.nodup_dedup _
  · intro name
    rw [← hid]
    exact mem_permissionsQuery db u.id name

/-- C1 witnessed on `sampleDB`. -/
theorem C1_witness :
    ∃ pr : Principal,
      verifyToken sampleDB 0 (some (Token.signed ⟨1, 1⟩ Key.accessSecret 10)) =
        AuthResult.accept pr ∧
      pr.permissions.Nodup ∧
      ∀ name : String,
        name ∈ pr.permissions ↔ permissionReachable sampleDB 1 name :=
  C1_admits_with_permission_union sampleDB 0 10 ⟨1, 1⟩
    { id := 1, email := "ada@example.com", first_name := "Ada", last_name := "L",
      tenant_id := 1, status := "active" }
    { id := 1, name := "T1", status := "active" }
    (by decide) (by decide) (by decide) (by decide) (by decide) (by decide)
    (by decide) (by decide) (by decide)

/-! ### Claim C2 -/

/-- C2: the user-existence check strictly precedes the tenant check.
When the decoded `userId` names no active user, the middleware answers
`401 User not found or inactive` (whatever the tenants table holds);
when an active user exists but the joined tenant's status is not
`active` (ids unique, as primary keys), it answers
`403 Organization is suspended`. -/
theorem C2_user_check_precedes_tenant_check
    (db : DB) (now exp : Int) (payload : Payload) (hexp : now < exp) :
    ((∀ u ∈ db.users, u.id = payload.userId → u.status ≠ "active") →
      verifyToken db now (some (Token.signed payload Key.accessSecret exp)) =
        AuthResult.reject 401 "User not found or inactive") ∧
    (∀ u ∈ db.users, ∀ t ∈ db.tenants,
      (∀ u1 ∈ db.users, ∀ u2 ∈ db.users, u1.id = u2.id → u1 = u2) →
      (∀ t1 ∈ db.tenants, ∀ t2 ∈ db.tenants, t1.id = t2.id → t1 = t2) →
      u.id = payload.userId → u.status = "active" → u.tenant_id = t.id →
      t.status ≠ "active" →
      verifyToken db now (some (Token.signed payload Key.accessSecret exp)) =
        AuthResult.reject 403 "Organization is suspended") := by
  constructor
  · intro h
    have hq : userTenantQuery db payload.userId = [] := by
      unfold userTenantQuery
      have hfilter :
          db.users.filter (fun u => u.id = payload.userId ∧ u.status = "active") = [] := by
        rw [List.filter_eq_nil_iff]
        intro u hu
        simp only [decide_eq_true_eq, not_and]
        exact h u hu
      rw [hfilter]
      rfl
    have hj : jwtVerify (Token.signed payload Key.accessSecret exp) Key.accessSecret now =
        Except.ok payload := by
      simp only [jwtVerify]
      rw [if_neg (by simp), if_neg (not_le.mpr hexp)]
    simp only [verifyToken, verifyTokenT, hj, hq]
  · intro u hu t ht uuniq tuniq hid hact htid hts
    obtain ⟨hne, hall⟩ :=
      userTenantQuery_eq_pair db payload.userId u t uuniq tuniq hu hid hact ht htid
    obtain ⟨x, xs, hq⟩ := List.exists_cons_of_ne_nil hne
    have hx : x = (u, t) := hall x (hq ▸ List.mem_cons_self x xs)
    subst hx
    have hj : jwtVerify (Token.signed payload Key.accessSecret exp) Key.accessSecret now =
        Except.ok payload := by
      simp only [jwtVerify]
      rw [if_neg (by simp), if_neg (not_le.mpr hexp)]
    simp only [verifyToken, verifyTokenT, hj, hq]
    rw [if_pos hts]

/-- C2 witnessed: on `staleDB` (inactive user in a suspended tenant)
the answer is the 401, on `suspendedDB` (active user in a suspended
tenant) the 403. -/
theorem C2_witness :
    verifyToken staleDB 0 (some (Token.signed ⟨1, 1⟩ Key.accessSecret 10)) =
        AuthResult.reject 401 "User not found or inactive" ∧
    verifyToken suspendedDB 0 (some (Token.signed ⟨1, 1⟩ Key.accessSecret 10)) =
        AuthResult.reject 403 "Organization is suspended" :=
  ⟨(C2_user_check_precedes_tenant_check staleDB 0 10 ⟨1, 1⟩ (by decide)).1 (by decide),
   (C2_user_check_precedes_tenant_check suspendedDB 0 10 ⟨1, 1⟩ (by decide)).2
     { id := 1, email := "ada@example.com", first_name := "Ada", last_name := "L",
       tenant_id := 1, status := "active" }
     (by decide)
     { id := 1, name := "T1", status := "suspended" }
     (by decide) (by decide) (by decide) (by decide) (by decide) (by decide)
     (by decide)⟩

/-! ### Claim C5 -/

/-- On every admitted request the attached principal carries exactly
the permission query for its own user id. -/
lemma verifyToken_admit_inv (db : DB) (now : Int) (token? : Option Token)
    (pr : Principal) (h : verifyToken db now token? = AuthResult.accept pr) :
    pr.permissions = permissionsQuery db pr.id := by
  cases token? with
  | none => simp [verifyToken, verifyTokenT] at h
  | some tok =>
    cases hjwt : jwtVerify tok Key.accessSecret now with
    | error e =>
      cases e <;> simp [verifyToken, verifyTokenT, hjwt] at h
    | ok decoded =>
      cases hq : userTenantQuery db decoded.userId with
      | nil => simp [verifyToken, verifyTokenT, hjwt, hq] at h
      | cons x xs =>
        obtain ⟨u, t⟩ := x
        by_cases hts : t.status = "active"
        · simp only [verifyToken, verifyTokenT, hjwt, hq] at h
          rw [if_neg (by simp [hts])] at h
          have h2 : AuthResult.accept
              { id := u.id, email := u.email, firstName := u.first_name,
                lastName := u.last_name, tenantId := t.id, tenantName := t.name,
                permissions := permissionsQuery db u.id } = AuthResult.accept pr := h
          injection h2 with h3
          subst h3
          rfl
        · simp only [verifyToken, verifyTokenT, hjwt, hq] at h
          rw [if_pos hts] at h
          simp at h

/-- C5 counterexample: in `leakDB` user 1 of tenant 1 is assigned role
99 of tenant 2; the admitted principal carries the permission `secret`
although it is not granted via any role of the principal's own tenant
— it leaks from tenant 2's role. -/
theorem C5_counterexample_cross_tenant_leak :
    verifyToken leakDB 0 (some (Token.signed ⟨1, 1⟩ Key.accessSecret 10)) =
        AuthResult.accept leakPrincipal ∧
    "secret" ∈ leakPrincipal.permissions ∧
    ¬ grantedViaTenantRole leakDB leakPrincipal.id leakPrincipal.tenantId "secret" ∧
    grantedViaTenantRole leakDB leakPrincipal.id 2 "secret" :=
  ⟨by decide, by decide, by decide, by decide⟩

/-- C5 amended: when every role assignment of the admitted user names
a role belonging to the principal's tenant — which is what the
role-management routes maintain — every permission in the principal's
set is granted via a role of that tenant, for every store state
satisfying that scoping. -/
theorem C5_amended_no_leak_when_assignments_scoped
    (db : DB) (now : Int) (token? : Option Token) (pr : Principal)
    (hadm : verifyToken db now token? = AuthResult.accept pr)
    (hscoped : ∀ ur ∈ db.user_roles, ur.user_id = pr.id →
      roleOfTenant db ur.role_id pr.tenantId) :
    ∀ name ∈ pr.permissions, grantedViaTenantRole db pr.id pr.tenantId name := by
  intro name hname
  rw [verifyToken_admit_inv db now token? pr hadm, mem_permissionsQuery] at hname
  obtain ⟨ur, hur, huid, rp, hrp, hrid, p, hp, hpid, hpname⟩ := hname
  exact ⟨ur, hur, huid, hscoped ur hur huid, rp, hrp, hrid, p, hp, hpid, hpname⟩

/-- C5 amended, witnessed on `sampleDB` whose only role assignment is
tenant-consistent: the admitted permission `tasks.view` is granted via
a role of the principal's own tenant. -/
theorem C5_amended_witness :
    grantedViaTenantRole sampleDB samplePrincipal.id samplePrincipal.tenantId
      "tasks.view" :=
  C5_amended_no_leak_when_assignments_scoped sampleDB 0
    (some (Token.signed ⟨1, 1⟩ Key.accessSecret 10)) samplePrincipal
    (by decide) (by decide) "tasks.view" (by decide)

/-! ### Claim C9 -/

/-- C9: the refresh exchange checks only the refresh token's signature
and expiry and the paired session row's activity and expiry: its
outcome is unchanged under arbitrary replacement of the `users` and
`tenants` tables, and with a validly signed unexpired refresh token
and an active unexpired session row it issues a fresh access token —
even if the user is inactive or the tenant suspended. -/
theorem C9_refresh_ignores_user_and_tenant_status
    (db : DB) (now rexp accessTtl : Int) (payload : Payload) (s : SessionRow)
    (hs : s ∈ db.user_sessions)
    (hsrt : s.refresh_token = Token.signed payload Key.refreshSecret rexp)
    (hact : s.is_active = true) (hsexp : now < s.expires_at) (hrexp : now < rexp) :
    (∀ us : List UserRow, ∀ ts : List TenantRow,
      refreshTokenRoute { db with users := us, tenants := ts } now accessTtl
          (some (Token.signed payload Key.refreshSecret rexp)) =
        refreshTokenRoute db now accessTtl
          (some (Token.signed payload Key.refreshSecret rexp))) ∧
    refreshTokenRoute db now accessTtl
        (some (Token.signed payload Key.refreshSecret rexp)) =
      RefreshResult.issue (Token.signed payload Key.accessSecret (now + accessTtl)) := by
  refine ⟨fun us ts => rfl, ?_⟩
  have hmem : s ∈ sessionQuery db (Token.signed payload Key.refreshSecret rexp) now := by
    unfold sessionQuery
    rw [List.mem_filter]
    exact ⟨hs, by simp [hsrt, hact, hsexp]⟩
  have hj : jwtVerify (Token.signed payload Key.refreshSecret rexp) Key.refreshSecret now =
      Except.ok payload := by
    simp only [jwtVerify]
    rw [if_neg (by simp), if_neg (not_le.mpr hrexp)]
  simp only [refreshTokenRoute, hj]
  rw [if_neg (by rw [List.isEmpty_iff]; exact List.ne_nil_of_mem hmem)]

/-- C9 witnessed on `staleDB`: the user is inactive and the tenant
suspended, yet the refresh exchange issues a fresh access token. -/
theorem C9_witness :
    (∀ us : List UserRow, ∀ ts : List TenantRow,
      refreshTokenRoute { staleDB with users := us, tenants := ts } 0 3600
          (some (Token.signed ⟨1, 1⟩ Key.refreshSecret 100)) =
        refreshTokenRoute staleDB 0 3600
          (some (Token.signed ⟨1, 1⟩ Key.refreshSecret 100))) ∧
    refreshTokenRoute staleDB 0 3600
        (some (Token.signed ⟨1, 1⟩ Key.refreshSecret 100)) =
      RefreshResult.issue (Token.signed ⟨1, 1⟩ Key.accessSecret (0 + 3600)) :=
  C9_refresh_ignores_user_and_tenant_status staleDB 0 100 3600 ⟨1, 1⟩
    { refresh_token := Token.signed ⟨1, 1⟩ Key.refreshSecret 100,
      user_id := 1, is_active := true, expires_at := 100 }
    (by decide) (by decide) (by decide) (by decide) (by decide)

end TenantBackend
